import Mathlib

/-
Verification of the agent task-handling subsystem of the a2a image-generation
sample (samples/python/agents/images/app). The repository source under review
is the entry point app/__main__.py; the task store, request handler and task
state machine it instantiates (DefaultRequestHandler, InMemoryTaskStore and
the a2a task lifecycle) are library components not present in the reviewed
tree, so they are modelled here from the specification text. The entry-point
logic itself (environment checks, host URL selection, AgentCard construction)
is embedded directly from app/__main__.py.
-/

namespace A2A

/-- Task lifecycle states of the task state machine (spec section 4.3):
Submitted, Working, and the terminal states Completed, Failed, Canceled. -/
inductive TaskState where
  | submitted
  | working
  | completed
  | failed
  | canceled
deriving DecidableEq, Repr

/-- A state is terminal when it is Completed, Failed or Canceled. -/
def TaskState.isTerminal : TaskState → Bool
  | .completed => true
  | .failed => true
  | .canceled => true
  | _ => false

/-- Modelled from the spec: the legal transitions of the task state machine
(section 4.3). Submitted to Working, Working to Working (progress appends),
Working to Completed, Working to Failed, and Submitted or Working to
Canceled. Every other transition, in particular any transition out of a
terminal state, is illegal. -/
def validTransition : TaskState → TaskState → Bool
  | .submitted, .working => true
  | .working, .working => true
  | .working, .completed => true
  | .working, .failed => true
  | .submitted, .canceled => true
  | .working, .canceled => true
  | _, _ => false

/-- An artifact produced by the executor: a content mode (such as image/png)
and the content itself. -/
structure Artifact where
  mode : String
  content : String
deriving DecidableEq, Repr

/-- Modelled from the spec: a Task record (section 3): unique id, current
state, ordered sequence of artifacts produced so far, optional error detail,
creation and last-update timestamps. -/
structure Task where
  id : String
  state : TaskState
  artifacts : List Artifact
  errorDetail : Option String
  createdAt : Nat
  updatedAt : Nat
deriving DecidableEq, Repr

/-- The error taxonomy of spec section 7. -/
inductive A2AError where
  | validationError
  | unsupportedCapability
  | notFound
  | alreadyExists
  | invalidTransition
  | executionError (code : String)
deriving DecidableEq, Repr

/-- Modelled from the spec: the in-memory task store is a process-wide
mapping from task id to Task (section 3), here an association list. -/
structure InMemoryTaskStore where
  tasks : List (String × Task)
deriving DecidableEq, Repr

/-- Look a task up by id in the association list backing the store. -/
def findTask : List (String × Task) → String → Option Task
  | [], _ => none
  | (k, v) :: rest, i => if k = i then some v else findTask rest i

/-- Replace the entry for the given id, leaving every other entry intact. -/
def setTask : List (String × Task) → String → Task → List (String × Task)
  | [], _, _ => []
  | (k, v) :: rest, i, t => if k = i then (k, t) :: rest else (k, v) :: setTask rest i t

/-- Modelled from the spec: Get(id) returns the task, or NotFound when the
id is absent (section 4.2). -/
def InMemoryTaskStore.get (s : InMemoryTaskStore) (i : String) : Except A2AError Task :=
  match findTask s.tasks i with
  | some t => .ok t
  | none => .error .notFound

/-- Modelled from the spec: Create(id, initialState) makes a fresh Task with
empty artifact sequence and no error detail; it fails with AlreadyExists when
the id is already present, leaving the store untouched (section 4.2). The
store is returned alongside the result so that the no-overwrite guarantee is
explicit. -/
def InMemoryTaskStore.create (s : InMemoryTaskStore) (i : String) (init : TaskState)
    (now : Nat) : Except A2AError Task × InMemoryTaskStore :=
  match findTask s.tasks i with
  | some _ => (.error .alreadyExists, s)
  | none =>
    let t : Task := ⟨i, init, [], none, now, now⟩
    (.ok t, ⟨(i, t) :: s.tasks⟩)

/-- A mutation passed to Update: the requested next state, artifacts to
append to the task sequence, and an error detail to record, if any. -/
structure Mutation where
  newState : TaskState
  appendArtifacts : List Artifact
  errorDetail : Option String
deriving DecidableEq, Repr

/-- Apply a mutation to a task: move to the requested state, append the new
artifacts, record the error detail when one is given, and advance the
last-update timestamp (spec section 4.2). -/
def applyMutation (t : Task) (m : Mutation) (now : Nat) : Task :=
  { t with
      state := m.newState
      artifacts := t.artifacts ++ m.appendArtifacts
      errorDetail := match m.errorDetail with
        | some e => some e
        | none => t.errorDetail
      updatedAt := now }

/-- Modelled from the spec: Update(id, mutation) applies a transition; it
fails with NotFound when the id is absent and with InvalidTransition when the
requested state change violates the task state machine, in both cases leaving
the store unchanged (sections 4.2 and 4.3). -/
def InMemoryTaskStore.update (s : InMemoryTaskStore) (i : String) (m : Mutation)
    (now : Nat) : Except A2AError Task × InMemoryTaskStore :=
  match findTask s.tasks i with
  | none => (.error .notFound, s)
  | some t =>
    if validTransition t.state m.newState then
      let t2 := applyMutation t m now
      (.ok t2, ⟨setTask s.tasks i t2⟩)
    else
      (.error .invalidTransition, s)

/-- Capability flags advertised by an agent (app/__main__.py line 56 uses
only the streaming flag). -/
structure AgentCapabilities where
  streaming : Bool
deriving DecidableEq, Repr

/-- A skill advertised on the card (a2a.types.AgentSkill as instantiated at
app/__main__.py lines 57 to 67). -/
structure AgentSkill where
  id : String
  name : String
  description : String
  tags : List String
  examples : List String
deriving DecidableEq, Repr

/-- The advertised agent card (a2a.types.AgentCard as instantiated at
app/__main__.py lines 74 to 87). -/
structure AgentCard where
  name : String
  description : String
  url : String
  version : String
  defaultInputModes : List String
  defaultOutputModes : List String
  capabilities : AgentCapabilities
  skills : List AgentSkill
deriving DecidableEq, Repr

/-- An inbound protocol request (spec section 6): it references a target task
id, carries input content, and may require the streaming capability. -/
structure Request where
  taskId : String
  needsStreaming : Bool
  content : String
deriving DecidableEq, Repr

/-- A response (spec section 6): the task id, the task current or terminal
state, the artifacts produced, and the surfaced error code, if any. -/
structure Response where
  taskId : String
  state : TaskState
  artifacts : List Artifact
  errorCode : Option String
deriving DecidableEq, Repr

/-- The result of one executor invocation (spec section 4.5): either the
final artifacts of a successful run, or an ExecutionError carrying a
machine-readable error code. -/
inductive ExecResult where
  | success (artifacts : List Artifact)
  | failure (code : String)
deriving DecidableEq, Repr

/-- The executor contract Execute: input content in, result out. -/
def Executor := String → ExecResult

/-- The outcome of one Handle call: the response or error returned to the
caller, the resulting store, and how many times Executor.Execute ran. -/
structure HandleOutcome where
  response : Except A2AError Response
  store : InMemoryTaskStore
  execCalls : Nat
deriving Repr

/-- Run the executor for a non-terminal task: transition it to Working,
invoke Execute once, then apply the matching terminal transition — Completed
with the artifacts appended on success, Failed with the error code recorded
as error detail on an ExecutionError, which is also surfaced in the response
(spec sections 4.4, 4.5 and 7). -/
def runExecution (execute : Executor) (s : InMemoryTaskStore) (i : String)
    (req : Request) (now : Nat) : HandleOutcome :=
  match s.update i ⟨.working, [], none⟩ now with
  | (.error e, s1) => ⟨.error e, s1, 0⟩
  | (.ok _, s1) =>
    match execute req.content with
    | .success arts =>
      match s1.update i ⟨.completed, arts, none⟩ now with
      | (.ok t2, s2) => ⟨.ok ⟨t2.id, t2.state, t2.artifacts, none⟩, s2, 1⟩
      | (.error e, s2) => ⟨.error e, s2, 1⟩
    | .failure code =>
      match s1.update i ⟨.failed, [], some code⟩ now with
      | (.ok t2, s2) => ⟨.ok ⟨t2.id, t2.state, t2.artifacts, some code⟩, s2, 1⟩
      | (.error e, s2) => ⟨.error e, s2, 1⟩

namespace DefaultRequestHandler

/-- Modelled from the spec: Handle (section 4.4, the behavior behind the
DefaultRequestHandler built at app/__main__.py lines 89 to 92). It first
validates required capabilities against the AgentCard, rejecting with
UnsupportedCapability before any task is created; a request that references
a task already in a terminal state returns the stored artifacts and error
detail directly without invoking the executor; otherwise the task is
resolved or created as Submitted, transitioned to Working, and the executor
is invoked exactly once. -/
def handle (card : AgentCard) (execute : Executor) (s : InMemoryTaskStore)
    (req : Request) (now : Nat) : HandleOutcome :=
  if req.needsStreaming && !card.capabilities.streaming then
    ⟨.error .unsupportedCapability, s, 0⟩
  else
    match findTask s.tasks req.taskId with
    | some t =>
      if t.state.isTerminal then
        ⟨.ok ⟨t.id, t.state, t.artifacts, t.errorDetail⟩, s, 0⟩
      else
        runExecution execute s req.taskId req now
    | none =>
      match s.create req.taskId .submitted now with
      | (.ok _, s1) => runExecution execute s1 req.taskId req now
      | (.error e, s1) => ⟨.error e, s1, 0⟩

/-- The outcome of one Cancel call: the acknowledged state or error, the
resulting store, and whether a cancellation signal reached the executor. -/
structure CancelOutcome where
  result : Except A2AError TaskState
  store : InMemoryTaskStore
  signaled : Bool
deriving Repr

/-- Modelled from the spec: Cancel (section 4.4). Unknown ids fail with
NotFound; a task already terminal is a no-op returning its current terminal
state; a Submitted or Working task gets a cooperative cancellation signal to
the executor and transitions to Canceled once acknowledged. -/
def cancel (s : InMemoryTaskStore) (i : String) (now : Nat) : CancelOutcome :=
  match findTask s.tasks i with
  | none => ⟨.error .notFound, s, false⟩
  | some t =>
    if t.state.isTerminal then
      ⟨.ok t.state, s, false⟩
    else
      match s.update i ⟨.canceled, [], none⟩ now with
      | (.ok t2, s1) => ⟨.ok t2.state, s1, true⟩
      | (.error e, s1) => ⟨.error e, s1, true⟩

end DefaultRequestHandler

/-- Modelled from the spec: the supported content types of the
ImageGenerationAgent (app/agent.py is not part of the reviewed tree; the
spec scenarios in section 8 use text/plain input and image/png artifacts). -/
def SUPPORTED_CONTENT_TYPES : List String := ["text/plain", "image/png"]

/-- The skill declared at app/__main__.py lines 57 to 67. -/
def imageGeneratorSkill : AgentSkill :=
  { id := "image_generator"
    name := "Image Generator"
    description := "Generate stunning, high-quality images on demand and leverage powerful editing capabilities to modify, enhance, or completely transform visuals."
    tags := ["generate image", "edit image"]
    examples := ["Generate a photorealistic image of raspberry lemonade"] }

/-- The AgentCard built at app/__main__.py lines 74 to 87, parametrized by
the advertised URL; its capabilities are AgentCapabilities(streaming=False)
from line 56. -/
def agentCard (url : String) : AgentCard :=
  { name := "Image Generator Agent"
    description := "Generate stunning, high-quality images on demand and leverage powerful editing capabilities to modify, enhance, or completely transform visuals. All operations monitored with LangSmith."
    url := url
    version := "1.0.0"
    defaultInputModes := SUPPORTED_CONTENT_TYPES
    defaultOutputModes := SUPPORTED_CONTENT_TYPES
    capabilities := ⟨false⟩
    skills := [imageGeneratorSkill] }

/-- Modelled from the spec: the static configuration BuildCard consumes
(section 4.1); each required field of the AgentCard constructor call at
app/__main__.py lines 74 to 87 may be present or missing. -/
structure CardConfig where
  name : Option String
  description : Option String
  url : Option String
  version : Option String
  defaultInputModes : Option (List String)
  defaultOutputModes : Option (List String)
  capabilities : Option AgentCapabilities
  skills : Option (List AgentSkill)
deriving DecidableEq, Repr

/-- A configuration is complete when every required field is present. -/
def CardConfig.complete (c : CardConfig) : Bool :=
  c.name.isSome && c.description.isSome && c.url.isSome && c.version.isSome &&
  c.defaultInputModes.isSome && c.defaultOutputModes.isSome &&
  c.capabilities.isSome && c.skills.isSome

/-- Modelled from the spec: BuildCard(config), pure construction of an
AgentCard from static configuration, failing with a ValidationError exactly
when a required field is missing (section 4.1). -/
def buildCard (c : CardConfig) : Except A2AError AgentCard :=
  match c.name, c.description, c.url, c.version, c.defaultInputModes,
      c.defaultOutputModes, c.capabilities, c.skills with
  | some n, some d, some u, some v, some im, some om, some cap, some sk =>
    .ok ⟨n, d, u, v, im, om, cap, sk⟩
  | _, _, _, _, _, _, _, _ => .error .validationError

/-- An environment is a partial map from variable names to values, the shape
of os.getenv: none when the variable is unset. -/
def Env := String → Option String

/-- Python truthiness of an os.getenv result: None is falsy, and a string is
falsy exactly when it is empty (app/__main__.py lines 34 to 36 and 69 to 73
branch on this truthiness). -/
def truthyEnv : Option String → Bool
  | none => false
  | some s => !(s == "")

/-- The credential check at app/__main__.py lines 34 to 36: the branch
raising MissingAPIKeyError is taken when neither GOOGLE_API_KEY nor
GOOGLE_GENAI_USE_VERTEXAI evaluates truthy. -/
def googleApiConfigured (env : Env) : Bool :=
  truthyEnv (env "GOOGLE_API_KEY") || truthyEnv (env "GOOGLE_GENAI_USE_VERTEXAI")

/-- Click option default for the host, app/__main__.py line 28. -/
def defaultHost : String := "localhost"

/-- Click option default for the port, app/__main__.py line 29. -/
def defaultPort : Nat := 10001

/-- The advertised host URL computed at app/__main__.py lines 69 to 73:
the value of HOST_OVERRIDE when that evaluates truthy (set and non-empty),
otherwise the URL interpolated from host and port. -/
def agentHostUrl (env : Env) (host : String) (port : Nat) : String :=
  if truthyEnv (env "HOST_OVERRIDE") then (env "HOST_OVERRIDE").getD ""
  else "http://" ++ host ++ ":" ++ toString port ++ "/"

/-- The URL the built card advertises, with the host and port options
resolved against their click defaults. -/
def advertisedUrl (env : Env) (hostOpt : Option String) (portOpt : Option Nat) : String :=
  agentHostUrl env (hostOpt.getD defaultHost) (portOpt.getD defaultPort)

/-- The observable result of running main: either the process exits with a
status code before any server object is built, or startup proceeds with the
constructed AgentCard and its advertised URL. -/
inductive MainResult where
  | exitCode (code : Nat)
  | serverStarted (card : AgentCard) (url : String)
deriving DecidableEq, Repr

/-- The main entry point, app/__main__.py lines 30 to 109: resolve the host
and port options against their click defaults, raise MissingAPIKeyError and
exit with status 1 when the Google API check fails — before the AgentCard,
request handler or server are constructed — and otherwise build the card
with the computed host URL and start the server. -/
def main (env : Env) (hostOpt : Option String) (portOpt : Option Nat) : MainResult :=
  if !googleApiConfigured env then
    .exitCode 1
  else
    let url := advertisedUrl env hostOpt portOpt
    .serverStarted (agentCard url) url

/-- An environment in which GOOGLE_API_KEY is set but holds the empty
string, and every other variable is unset. -/
def envEmptyKey : Env :=
  fun k => if k = "GOOGLE_API_KEY" then some "" else none

/-- No transition out of a terminal state is valid. -/
theorem validTransition_terminal_false (a b : TaskState) (h : a.isTerminal = true) :
    validTransition a b = false := by
  cases a <;> cases b <;> simp_all [TaskState.isTerminal, validTransition]

/-- C1: if the task stored under an id is in a terminal state, any Update
call on that id fails with InvalidTransition and returns the store unchanged:
the task state, artifacts and error detail are left exactly as they were. -/
theorem terminal_update_invalid (s : InMemoryTaskStore) (i : String) (t : Task)
    (m : Mutation) (now : Nat) (hget : findTask s.tasks i = some t)
    (hterm : t.state.isTerminal = true) :
    s.update i m now = (.error .invalidTransition, s) := by
  unfold InMemoryTaskStore.update
  rw [hget]
  simp [validTransition_terminal_false t.state m.newState hterm]

/-- Witness for C1 at a concrete store holding one Completed task. -/
theorem terminal_update_invalid_witness :
    (InMemoryTaskStore.mk [("t1", ⟨"t1", .completed, [⟨"image/png", "img"⟩], none, 0, 1⟩)]).update
      "t1" ⟨.working, [], none⟩ 2 =
    (.error .invalidTransition,
      InMemoryTaskStore.mk [("t1", ⟨"t1", .completed, [⟨"image/png", "img"⟩], none, 0, 1⟩)]) :=
  terminal_update_invalid _ "t1" ⟨"t1", .completed, [⟨"image/png", "img"⟩], none, 0, 1⟩
    ⟨.working, [], none⟩ 2 (by decide) (by decide)

/-- C6: Create on an id already present in the store fails with AlreadyExists
and returns the store unchanged, so the existing task is never overwritten. -/
theorem create_existing_fails (s : InMemoryTaskStore) (i : String) (t : Task)
    (init : TaskState) (now : Nat) (hget : findTask s.tasks i = some t) :
    s.create i init now = (.error .alreadyExists, s) := by
  unfold InMemoryTaskStore.create
  rw [hget]

/-- Witness for C6 at a concrete store holding one task. -/
theorem create_existing_fails_witness :
    (InMemoryTaskStore.mk [("t1", ⟨"t1", .working, [], none, 0, 0⟩)]).create "t1" .submitted 5 =
    (.error .alreadyExists, InMemoryTaskStore.mk [("t1", ⟨"t1", .working, [], none, 0, 0⟩)]) :=
  create_existing_fails _ "t1" ⟨"t1", .working, [], none, 0, 0⟩ .submitted 5 (by decide)

/-- C2: against the card this server builds (streaming false), every request
that requires the streaming capability is rejected with UnsupportedCapability,
the store is returned unchanged (no task is created), and the executor is
never invoked. -/
theorem streaming_request_rejected (url : String) (execute : Executor)
    (s : InMemoryTaskStore) (req : Request) (now : Nat)
    (h : req.needsStreaming = true) :
    DefaultRequestHandler.handle (agentCard url) execute s req now =
      ⟨.error .unsupportedCapability, s, 0⟩ := by
  simp [DefaultRequestHandler.handle, agentCard, h]

/-- Witness for C2 at a concrete streaming request. -/
theorem streaming_request_rejected_witness :
    DefaultRequestHandler.handle (agentCard "http://localhost:10001/")
      (fun _ => .success []) ⟨[]⟩ ⟨"t1", true, "generate a red circle"⟩ 0 =
      ⟨.error .unsupportedCapability, ⟨[]⟩, 0⟩ :=
  streaming_request_rejected "http://localhost:10001/" (fun _ => .success [])
    ⟨[]⟩ ⟨"t1", true, "generate a red circle"⟩ 0 rfl

/-- C3: a Handle call referencing a task already in a terminal state returns
the stored artifacts and error detail directly, leaves the store unchanged,
and performs zero executor invocations; the outcome does not depend on the
executor at all. -/
theorem terminal_task_idempotent_read (card : AgentCard) (execute : Executor)
    (s : InMemoryTaskStore) (req : Request) (now : Nat) (t : Task)
    (hcap : req.needsStreaming = false ∨ card.capabilities.streaming = true)
    (hget : findTask s.tasks req.taskId = some t)
    (hterm : t.state.isTerminal = true) :
    DefaultRequestHandler.handle card execute s req now =
      ⟨.ok ⟨t.id, t.state, t.artifacts, t.errorDetail⟩, s, 0⟩ := by
  rcases hcap with h | h <;> simp [DefaultRequestHandler.handle, h, hget, hterm]

/-- Witness for C3 at a concrete store holding a Completed task with one
stored artifact. -/
theorem terminal_task_idempotent_read_witness :
    DefaultRequestHandler.handle (agentCard "u") (fun _ => .failure "boom")
      ⟨[("t1", ⟨"t1", .completed, [⟨"image/png", "img"⟩], none, 0, 1⟩)]⟩
      ⟨"t1", false, "generate a red circle"⟩ 9 =
      ⟨.ok ⟨"t1", .completed, [⟨"image/png", "img"⟩], none⟩,
        ⟨[("t1", ⟨"t1", .completed, [⟨"image/png", "img"⟩], none, 0, 1⟩)]⟩, 0⟩ :=
  terminal_task_idempotent_read (agentCard "u") (fun _ => .failure "boom")
    ⟨[("t1", ⟨"t1", .completed, [⟨"image/png", "img"⟩], none, 0, 1⟩)]⟩
    ⟨"t1", false, "generate a red circle"⟩ 9
    ⟨"t1", .completed, [⟨"image/png", "img"⟩], none, 0, 1⟩
    (Or.inl rfl) (by decide) (by decide)

/-- C4: when the executor reports an ExecutionError with a machine-readable
code on a freshly submitted task, the handler records the terminal Failed
state with that code as the error detail, surfaces the code in the response,
and invokes the executor exactly once (no retry inside this subsystem). -/
theorem execution_error_fails_task (card : AgentCard) (execute : Executor)
    (s : InMemoryTaskStore) (req : Request) (now : Nat) (code : String)
    (hcap : req.needsStreaming = false ∨ card.capabilities.streaming = true)
    (hfresh : findTask s.tasks req.taskId = none)
    (hexec : execute req.content = .failure code) :
    DefaultRequestHandler.handle card execute s req now =
      ⟨.ok ⟨req.taskId, .failed, [], some code⟩,
        ⟨(req.taskId, ⟨req.taskId, .failed, [], some code, now, now⟩) :: s.tasks⟩, 1⟩ := by
  rcases hcap with h | h <;>
    simp [DefaultRequestHandler.handle, runExecution, InMemoryTaskStore.create,
      InMemoryTaskStore.update, applyMutation, findTask, setTask, validTransition,
      h, hfresh, hexec]

/-- Witness for C4 with the spec scenario: the executor reports code
quota_exceeded for task t2 and the task ends Failed with that code surfaced. -/
theorem execution_error_fails_task_witness :
    DefaultRequestHandler.handle (agentCard "u") (fun _ => .failure "quota_exceeded")
      ⟨[]⟩ ⟨"t2", false, "generate a red circle"⟩ 4 =
      ⟨.ok ⟨"t2", .failed, [], some "quota_exceeded"⟩,
        ⟨[("t2", ⟨"t2", .failed, [], some "quota_exceeded", 4, 4⟩)]⟩, 1⟩ :=
  execution_error_fails_task (agentCard "u") (fun _ => .failure "quota_exceeded")
    ⟨[]⟩ ⟨"t2", false, "generate a red circle"⟩ 4 "quota_exceeded"
    (Or.inl rfl) (by decide) rfl

/-- C5: Cancel fails with NotFound on an unknown id; it is a no-op returning
the existing terminal state on a terminal task, signalling nothing; and on a
Submitted or Working task it signals the executor and transitions the task
to Canceled. -/
theorem cancel_spec (s : InMemoryTaskStore) (i : String) (now : Nat) :
    (findTask s.tasks i = none →
      DefaultRequestHandler.cancel s i now = ⟨.error .notFound, s, false⟩) ∧
    (∀ t, findTask s.tasks i = some t → t.state.isTerminal = true →
      DefaultRequestHandler.cancel s i now = ⟨.ok t.state, s, false⟩) ∧
    (∀ t, findTask s.tasks i = some t →
      (t.state = .submitted ∨ t.state = .working) →
      DefaultRequestHandler.cancel s i now =
        ⟨.ok .canceled,
          ⟨setTask s.tasks i (applyMutation t ⟨.canceled, [], none⟩ now)⟩, true⟩) := by
  refine ⟨fun h => ?_, fun t hget hterm => ?_, fun t hget hst => ?_⟩
  · simp [DefaultRequestHandler.cancel, h]
  · simp [DefaultRequestHandler.cancel, hget, hterm]
  · rcases hst with h | h <;>
      simp [DefaultRequestHandler.cancel, InMemoryTaskStore.update, applyMutation,
        validTransition, TaskState.isTerminal, hget, h]

/-- Witness for C5 exercising all three branches on concrete stores. -/
theorem cancel_spec_witness :
    DefaultRequestHandler.cancel ⟨[]⟩ "t9" 0 = ⟨.error .notFound, ⟨[]⟩, false⟩ ∧
    DefaultRequestHandler.cancel ⟨[("t1", ⟨"t1", .completed, [], none, 0, 1⟩)]⟩ "t1" 2 =
      ⟨.ok .completed, ⟨[("t1", ⟨"t1", .completed, [], none, 0, 1⟩)]⟩, false⟩ ∧
    DefaultRequestHandler.cancel ⟨[("t1", ⟨"t1", .working, [], none, 0, 0⟩)]⟩ "t1" 3 =
      ⟨.ok .canceled, ⟨[("t1", ⟨"t1", .canceled, [], none, 0, 3⟩)]⟩, true⟩ :=
  ⟨(cancel_spec ⟨[]⟩ "t9" 0).1 rfl,
    (cancel_spec _ "t1" 2).2.1 ⟨"t1", .completed, [], none, 0, 1⟩ rfl rfl,
    (cancel_spec _ "t1" 3).2.2 ⟨"t1", .working, [], none, 0, 0⟩ rfl (Or.inr rfl)⟩

/-- C7: BuildCard fails with a ValidationError exactly when some required
field of the configuration is missing, and succeeds on every complete
configuration. Pure construction holds by construction: buildCard is a
total function of its configuration. -/
theorem buildCard_validation (c : CardConfig) :
    (buildCard c = .error .validationError ↔ c.complete = false) ∧
    (c.complete = true → ∃ card, buildCard c = .ok card) := by
  rcases c with ⟨n, d, u, v, im, om, cap, sk⟩
  cases n <;> cases d <;> cases u <;> cases v <;> cases im <;> cases om <;>
    cases cap <;> cases sk <;>
      simp [buildCard, CardConfig.complete]

/-- Witness for C7: the configuration of the source card succeeds, and the
same configuration with the URL missing fails with a ValidationError. -/
theorem buildCard_validation_witness :
    (∃ card, buildCard
      ⟨some "Image Generator Agent", some "d", some "http://localhost:10001/",
        some "1.0.0", some SUPPORTED_CONTENT_TYPES, some SUPPORTED_CONTENT_TYPES,
        some ⟨false⟩, some [imageGeneratorSkill]⟩ = .ok card) ∧
    buildCard
      ⟨some "Image Generator Agent", some "d", none,
        some "1.0.0", some SUPPORTED_CONTENT_TYPES, some SUPPORTED_CONTENT_TYPES,
        some ⟨false⟩, some [imageGeneratorSkill]⟩ = .error .validationError :=
  ⟨(buildCard_validation _).2 rfl, (buildCard_validation _).1.mpr rfl⟩

/-- C9 counterexample: GOOGLE_API_KEY is set (to the empty string), yet main
still raises MissingAPIKeyError and exits with status 1, because the source
checks Python truthiness of os.getenv, not presence. -/
theorem apiKey_check_counterexample :
    (envEmptyKey "GOOGLE_API_KEY").isSome = true ∧
    main envEmptyKey none none = .exitCode 1 := by
  constructor
  · decide
  · decide

/-- C9 amended: when neither GOOGLE_API_KEY nor GOOGLE_GENAI_USE_VERTEXAI is
set, main exits with status 1 before any AgentCard or server is constructed;
when at least one of them is set to a non-empty value, the check passes and
startup proceeds to build the card and start the server. -/
theorem apiKey_check (env : Env) (hostOpt : Option String) (portOpt : Option Nat) :
    (env "GOOGLE_API_KEY" = none → env "GOOGLE_GENAI_USE_VERTEXAI" = none →
      main env hostOpt portOpt = .exitCode 1) ∧
    ((truthyEnv (env "GOOGLE_API_KEY") = true ∨
        truthyEnv (env "GOOGLE_GENAI_USE_VERTEXAI") = true) →
      main env hostOpt portOpt =
        .serverStarted (agentCard (advertisedUrl env hostOpt portOpt))
          (advertisedUrl env hostOpt portOpt)) := by
  constructor
  · intro h1 h2
    simp [main, googleApiConfigured, truthyEnv, h1, h2]
  · intro h
    rcases h with h | h <;> simp [main, googleApiConfigured, h]

/-- Witness for C9 amended: startup fails with exit status 1 in the empty
environment and proceeds when GOOGLE_API_KEY holds a non-empty value. -/
theorem apiKey_check_witness :
    main (fun _ => none) none none = .exitCode 1 ∧
    main (fun k => if k = "GOOGLE_API_KEY" then some "abc" else none) none none =
      .serverStarted
        (agentCard (advertisedUrl
          (fun k => if k = "GOOGLE_API_KEY" then some "abc" else none) none none))
        (advertisedUrl
          (fun k => if k = "GOOGLE_API_KEY" then some "abc" else none) none none) :=
  ⟨(apiKey_check (fun _ => none) none none).1 rfl rfl,
    (apiKey_check (fun k => if k = "GOOGLE_API_KEY" then some "abc" else none)
      none none).2 (Or.inl (by decide))⟩

/-- C10: the advertised URL equals HOST_OVERRIDE whenever that variable is
set and non-empty; otherwise it is the string http interpolation of the host
and port options with their click defaults localhost and 10001; and any card
main starts the server with advertises exactly this URL. -/
theorem advertised_url_spec (env : Env) (hostOpt : Option String) (portOpt : Option Nat) :
    (∀ s, env "HOST_OVERRIDE" = some s → s ≠ "" →
      advertisedUrl env hostOpt portOpt = s) ∧
    ((env "HOST_OVERRIDE" = none ∨ env "HOST_OVERRIDE" = some "") →
      advertisedUrl env hostOpt portOpt =
        "http://" ++ hostOpt.getD "localhost" ++ ":" ++
          toString (portOpt.getD 10001) ++ "/") ∧
    (∀ card url, main env hostOpt portOpt = .serverStarted card url →
      card.url = advertisedUrl env hostOpt portOpt) := by
  refine ⟨fun s h hne => ?_, fun h => ?_, fun card url h => ?_⟩
  · simp [advertisedUrl, agentHostUrl, truthyEnv, h, hne]
  · rcases h with h | h <;>
      simp [advertisedUrl, agentHostUrl, truthyEnv, h, defaultHost, defaultPort]
  · by_cases hc : googleApiConfigured env
    · simp [main, hc] at h
      rw [← h.1]
      simp [agentCard]
    · simp [main, hc] at h

/-- Witness for C10: HOST_OVERRIDE wins when set and non-empty, the default
URL is produced otherwise, and the card main builds carries that URL. -/
theorem advertised_url_spec_witness :
    advertisedUrl (fun k => if k = "HOST_OVERRIDE" then some "https://example.org" else none)
      none none = "https://example.org" ∧
    advertisedUrl (fun _ => none) none none = "http://localhost:10001/" ∧
    (agentCard "http://localhost:10001/").url =
      advertisedUrl (fun k => if k = "GOOGLE_API_KEY" then some "abc" else none) none none :=
  ⟨(advertised_url_spec
      (fun k => if k = "HOST_OVERRIDE" then some "https://example.org" else none)
      none none).1 "https://example.org" rfl (by decide),
    (advertised_url_spec (fun _ => none) none none).2.1 (Or.inl rfl),
    (advertised_url_spec (fun k => if k = "GOOGLE_API_KEY" then some "abc" else none)
      none none).2.2 (agentCard "http://localhost:10001/") "http://localhost:10001/" rfl⟩

end A2A
